import Mathlib

/-!
Shallow embedding of the interactive affordance layer of `primula-app`:
the ripple-effect emitter, the accessibility-preference queries and the
global keyboard-shortcut dispatch shared by the `Button` and `Fab`
components (`src/lib/utils.ts`, `src/components/ui/Button.tsx`,
`src/components/ui/Fab.tsx`).

DOM state is modelled explicitly: the browser environment is a record of
media-query results, a host control is a record of its bounding rectangle
and the child nodes of its `.ripple-container`, and each event handler is
a pure function from the old state to the new state (plus the observable
calls it made, such as `preventDefault` and `click`).  Pixel coordinates
are rationals, so the `size / 2` offsets of the source are exact.
-/

namespace Primula

/-- Browser environment: whether `window` is defined (false during
server-side rendering) and the current `matchMedia` results for the three
media queries the code consults. -/
structure Env where
  windowDefined : Bool
  reducedMotionMQ : Bool
  contrastMoreMQ : Bool
  contrastHighMQ : Bool
  deriving DecidableEq, Repr

/-- Embeds `prefersReducedMotion` from `src/lib/utils.ts`: returns `false`
when `window` is undefined, otherwise the result of
`matchMedia('(prefers-reduced-motion: reduce)').matches`. -/
def prefersReducedMotion (env : Env) : Bool :=
  if env.windowDefined = false then false
  else env.reducedMotionMQ

/-- Embeds `prefersHighContrast` from `src/lib/utils.ts`: returns `false`
when `window` is undefined, otherwise the disjunction of the
`prefers-contrast: more` and `prefers-contrast: high` query results. -/
def prefersHighContrast (env : Env) : Bool :=
  if env.windowDefined = false then false
  else env.contrastMoreMQ || env.contrastHighMQ

/-- Argument to `cn`: TypeScript type `string | undefined | false`. -/
inductive CnArg where
  | str (s : String)
  | undef
  | fls
  deriving DecidableEq, Repr

/-- JavaScript truthiness of a `cn` argument: `undefined`, `false` and the
empty string are falsy; every other string is truthy. -/
def CnArg.truthy : CnArg → Bool
  | .str s => s ≠ ""
  | .undef => false
  | .fls => false

/-- String value of a `cn` argument (only truthy arguments survive the
filter, and those are always strings). -/
def CnArg.val : CnArg → String
  | .str s => s
  | .undef => ""
  | .fls => ""

/-- Embeds `cn` from `src/lib/utils.ts`:
`classes.filter(Boolean).join(' ')`. -/
def cn (classes : List CnArg) : String :=
  String.intercalate " " ((classes.filter CnArg.truthy).map CnArg.val)

/-- Spec-side reading of `cn`: the truthy string arguments, in order. -/
def truthyStrings (classes : List CnArg) : List String :=
  classes.filterMap fun a =>
    match a with
    | .str s => if s = "" then none else some s
    | .undef => none
    | .fls => none

end Primula

namespace Primula

/-- A `<span class="ripple-effect">` node created by one of the ripple
emitters.  `id` models DOM node identity (`document.createElement` always
yields a fresh node); geometry fields are the inline styles the code
sets; `bgColor` is the optional `backgroundColor` override. -/
structure RippleNode where
  id : Nat
  width : ℚ
  height : ℚ
  left : ℚ
  top : ℚ
  cssClass : String
  bgColor : Option String
  deriving DecidableEq, Repr

/-- A host control as the ripple emitters see it: its
`getBoundingClientRect()` values, whether a `.ripple-container` child
exists, and the ripple nodes currently inside that container. -/
structure Host where
  rectLeft : ℚ
  rectTop : ℚ
  width : ℚ
  height : ℚ
  hasRippleContainer : Bool
  nodes : List RippleNode
  deriving DecidableEq, Repr

/-- A pointer-activation event: `clientX`/`clientY` in viewport
coordinates. -/
structure MouseEv where
  clientX : ℚ
  clientY : ℚ
  deriving DecidableEq, Repr

/-- Embeds `createRippleEffect` from `src/lib/utils.ts`.  Skips entirely
under reduced motion; otherwise sizes the ripple to
`max(rect.width, rect.height)`, offsets it by half the size so it is
centred on the click point, and appends it to the `.ripple-container`
when one exists (`querySelector(...)?.appendChild` is skipped when the
container is absent).  `fresh` is the identity of the newly created
node. -/
def createRippleEffect (env : Env) (fresh : Nat) (host : Host) (ev : MouseEv) : Host :=
  if prefersReducedMotion env then host
  else
    let size := max host.width host.height
    let x := ev.clientX - host.rectLeft - size / 2
    let y := ev.clientY - host.rectTop - size / 2
    let ripple : RippleNode :=
      { id := fresh, width := size, height := size, left := x, top := y
        cssClass := "ripple-effect", bgColor := none }
    if host.hasRippleContainer then { host with nodes := host.nodes ++ [ripple] }
    else host

/-- JavaScript truthiness of an optional string prop (`undefined` and the
empty string are falsy). -/
def optTruthy : Option String → Bool
  | some s => s ≠ ""
  | none => false

/-- Embeds the `handleRippleEffect` closure of
`src/components/ui/Button.tsx`: guarded only by
`disableAnimation || disabled || isLoading` (no reduced-motion check),
then the same size/offset computation as `createRippleEffect`, with the
custom `rippleColor` applied when truthy. -/
def handleRippleEffect (disableAnimation disabled isLoading : Bool)
    (rippleColor : Option String) (fresh : Nat) (host : Host) (ev : MouseEv) : Host :=
  if disableAnimation || disabled || isLoading then host
  else
    let size := max host.width host.height
    let x := ev.clientX - host.rectLeft - size / 2
    let y := ev.clientY - host.rectTop - size / 2
    let ripple : RippleNode :=
      { id := fresh, width := size, height := size, left := x, top := y
        cssClass := "ripple-effect"
        bgColor := if optTruthy rippleColor then rippleColor else none }
    if host.hasRippleContainer then { host with nodes := host.nodes ++ [ripple] }
    else host

/-- Ripple-relevant configuration of a `Button` instance
(`src/components/ui/Button.tsx` props, with their defaults applied by the
caller of these definitions). -/
structure ButtonCfg where
  disabled : Bool
  isLoading : Bool
  disableAnimation : Bool
  rippleColor : Option String
  rippleDuration : Int
  deriving DecidableEq, Repr

/-- Embeds the ripple branch of `Button`'s `onClick` handler: when the
control is not disabled, not loading and animation is not suppressed, it
dispatches to `handleRippleEffect` when a custom `rippleColor` is truthy
or `rippleDuration !== 600`, and to `createRippleEffect` otherwise. -/
def buttonOnClickRipple (env : Env) (cfg : ButtonCfg) (fresh : Nat)
    (host : Host) (ev : MouseEv) : Host :=
  if !cfg.disabled && !cfg.isLoading && !cfg.disableAnimation then
    if optTruthy cfg.rippleColor || cfg.rippleDuration ≠ 600 then
      handleRippleEffect cfg.disableAnimation cfg.disabled cfg.isLoading
        cfg.rippleColor fresh host ev
    else createRippleEffect env fresh host ev
  else host

/-- Embeds the ripple branch of `Fab`'s `onClick` handler
(`src/components/ui/Fab.tsx`): `createRippleEffect` guarded by
`!disabled && !disableAnimation`. -/
def fabOnClickRipple (env : Env) (disabled disableAnimation : Bool)
    (fresh : Nat) (host : Host) (ev : MouseEv) : Host :=
  if !disabled && !disableAnimation then createRippleEffect env fresh host ev
  else host

/-- Embeds the delayed `ripple.remove()` callback: removing a node from
the container's child list.  Removing a node that is no longer in the
tree leaves the list unchanged (DOM `remove()` on a detached node is a
no-op). -/
def removeRippleNode (nodes : List RippleNode) (rid : Nat) : List RippleNode :=
  nodes.filter fun n => n.id ≠ rid

/-- Embeds JavaScript `String.prototype.toLowerCase()` for the ASCII
strings this code applies it to (shortcut combinations, key names, tag
names): lowercase each character. -/
def jsToLower (s : String) : String := ⟨s.data.map Char.toLower⟩

/-- Splits a character list at every occurrence of `sep`, keeping empty
segments, exactly as JavaScript `split` does (`"" → [""]`,
`"a++b" → ["a", "", "b"]`). -/
def splitCharList (sep : Char) : List Char → List (List Char)
  | [] => [[]]
  | c :: rest =>
      let r := splitCharList sep rest
      if c = sep then [] :: r
      else
        match r with
        | [] => [[c]]
        | h :: t => (c :: h) :: t

/-- Embeds JavaScript `s.split('+')`. -/
def jsSplitOnPlus (s : String) : List String :=
  (splitCharList '+' s.data).map String.mk

/-- Tokens recognised as modifiers by both `handleGlobalKeyDown`
closures. -/
def modifierTokens : List String :=
  ["ctrl", "control", "alt", "shift", "meta", "cmd", "command"]

/-- Parsed shortcut combination: the four modifier flags and the literal
key (`none` when the combination contains no non-modifier token, in which
case the JS comparison against `undefined` can never succeed). -/
structure ParsedCombo where
  ctrl : Bool
  alt : Bool
  shift : Bool
  meta : Bool
  mainKey : Option String
  deriving DecidableEq, Repr

/-- Embeds the per-event parsing inside `handleGlobalKeyDown`
(`Button.tsx` and `Fab.tsx` are identical here): each modifier flag is
token membership, the literal key is the first non-modifier token
(`keys.filter(...)[0]`). -/
def parseTokens (keys : List String) : ParsedCombo :=
  { ctrl := keys.contains "ctrl" || keys.contains "control"
    alt := keys.contains "alt"
    shift := keys.contains "shift"
    meta := keys.contains "meta" || keys.contains "cmd" || keys.contains "command"
    mainKey := (keys.filter fun k => !modifierTokens.contains k).head? }

/-- Embeds `keyboardShortcut.toLowerCase().split('+')` followed by
`parseTokens`. -/
def parseCombination (s : String) : ParsedCombo :=
  parseTokens (jsSplitOnPlus (jsToLower s))

/-- A document-level `keydown` event: the literal key, the four modifier
flags and the tag name of the event target (`none` models a null target
or a target without a `tagName`, which the optional chaining in the
source treats as a non-text-entry target). -/
structure KeyEvent where
  key : String
  ctrlKey : Bool
  altKey : Bool
  shiftKey : Bool
  metaKey : Bool
  targetTag : Option String
  deriving DecidableEq, Repr

/-- Tag names treated as text-entry-capable by the guard. -/
def textEntryTags : List String := ["input", "textarea", "select"]

/-- Embeds the focus guard
`['input','textarea','select'].includes((e.target as HTMLElement)?.tagName?.toLowerCase())`. -/
def isTextEntryTarget (e : KeyEvent) : Bool :=
  match e.targetTag with
  | some t => textEntryTags.contains (jsToLower t)
  | none => false

/-- Embeds the key/modifier comparison of `handleGlobalKeyDown`:
`e.key.toLowerCase() === mainKey && e.ctrlKey === ctrlKey && ...`.  When
the combination has no literal key, `mainKey` is `undefined` and the
first conjunct is always false. -/
def comboMatchesEvent (c : ParsedCombo) (e : KeyEvent) : Bool :=
  match c.mainKey with
  | some k =>
      jsToLower e.key == k && e.ctrlKey == c.ctrl && e.altKey == c.alt &&
        e.shiftKey == c.shift && e.metaKey == c.meta
  | none => false

/-- Observable outcome of one `handleGlobalKeyDown` invocation: whether
`e.preventDefault()` was called and how many times
`buttonRef.current?.click()` was invoked. -/
structure KeyDownResult where
  prevented : Bool
  clicks : Nat
  deriving DecidableEq, Repr

/-- Embeds `handleGlobalKeyDown` from `src/components/ui/Button.tsx`:
return early on a text-entry target, otherwise fire (preventDefault then
click) exactly when the parsed combination matches the event and the
control is neither disabled nor loading. -/
def buttonHandleGlobalKeyDown (keyboardShortcut : String)
    (disabled isLoading : Bool) (e : KeyEvent) : KeyDownResult :=
  if isTextEntryTarget e then { prevented := false, clicks := 0 }
  else
    let c := parseCombination keyboardShortcut
    if comboMatchesEvent c e && !disabled && !isLoading then
      { prevented := true, clicks := 1 }
    else { prevented := false, clicks := 0 }

/-- Embeds `handleGlobalKeyDown` from `src/components/ui/Fab.tsx`:
identical to the Button version except that the eligibility check is
`!disabled` only (the Fab has no loading state). -/
def fabHandleGlobalKeyDown (keyboardShortcut : String)
    (disabled : Bool) (e : KeyEvent) : KeyDownResult :=
  if isTextEntryTarget e then { prevented := false, clicks := 0 }
  else
    let c := parseCombination keyboardShortcut
    if comboMatchesEvent c e && !disabled then
      { prevented := true, clicks := 1 }
    else { prevented := false, clicks := 0 }

/-- Listeners attached to the document's `keydown` stream and to the
contrast media query's `change` stream, by listener identity
(`addEventListener` registers a function object; `removeEventListener`
with the same object removes exactly that registration). -/
structure DocListeners where
  keydown : List Nat
  mediaChange : List Nat
  deriving DecidableEq, Repr

/-- Embeds mounting a `Button`/`Fab`: the high-contrast effect always
adds a media-query `change` listener; the shortcut effect adds a
document `keydown` listener exactly when the `keyboardShortcut` prop is
truthy (`if (!keyboardShortcut) return`).  `kid`/`mid` are the
identities of the two handler closures created by this mount. -/
def mountControlListeners (keyboardShortcut : Option String) (kid mid : Nat)
    (ls : DocListeners) : DocListeners :=
  { keydown := if optTruthy keyboardShortcut then ls.keydown ++ [kid] else ls.keydown
    mediaChange := ls.mediaChange ++ [mid] }

/-- Embeds the two effect cleanups run on unmount: each removes the same
listener object its effect added (`removeEventListener` on an identity
that is not registered is a no-op). -/
def unmountControlListeners (keyboardShortcut : Option String) (kid mid : Nat)
    (ls : DocListeners) : DocListeners :=
  { keydown := if optTruthy keyboardShortcut then ls.keydown.erase kid else ls.keydown
    mediaChange := ls.mediaChange.erase mid }

/-- C10: in a non-browser environment (`window` undefined, e.g. during
server-side rendering) both `prefersReducedMotion` and
`prefersHighContrast` return `false`, so the default at the public
interface is "no preference active" whenever no media-query capability
exists. -/
theorem prefers_queries_ssr_false (env : Env) (h : env.windowDefined = false) :
    prefersReducedMotion env = false ∧ prefersHighContrast env = false := by
  simp [prefersReducedMotion, prefersHighContrast, h]

theorem prefers_queries_ssr_false_witness :
    (Env.mk false true true true).windowDefined = false ∧
      (prefersReducedMotion (Env.mk false true true true) = false ∧
        prefersHighContrast (Env.mk false true true true) = false) :=
  ⟨rfl, prefers_queries_ssr_false (Env.mk false true true true) rfl⟩

/-- C9: `cn` returns exactly the truthy string arguments, in their
original order, joined by single spaces; `undefined`, `false` and the
empty string contribute nothing, and a call with no truthy argument
returns the empty string. -/
theorem cn_joins_truthy (classes : List CnArg) :
    cn classes = String.intercalate " " (truthyStrings classes) ∧
      (truthyStrings classes = [] → cn classes = "") := by
  have h : (classes.filter CnArg.truthy).map CnArg.val = truthyStrings classes := by
    induction classes with
    | nil => rfl
    | cons a t ih =>
      cases a with
      | str s =>
        by_cases hs : s = "" <;>
          simp [truthyStrings, CnArg.truthy, CnArg.val, hs, List.filter_cons,
            List.filterMap_cons, ih]
      | undef =>
        simpa [truthyStrings, CnArg.truthy, List.filter_cons, List.filterMap_cons] using ih
      | fls =>
        simpa [truthyStrings, CnArg.truthy, List.filter_cons, List.filterMap_cons] using ih
  refine ⟨by rw [cn, h], fun he => ?_⟩
  rw [cn, h, he]
  rfl

theorem cn_joins_truthy_witness :
    (cn [CnArg.str "a", CnArg.undef, CnArg.str "", CnArg.fls, CnArg.str "b"] =
        String.intercalate " "
          (truthyStrings [CnArg.str "a", CnArg.undef, CnArg.str "", CnArg.fls, CnArg.str "b"]) ∧
      (truthyStrings [CnArg.str "a", CnArg.undef, CnArg.str "", CnArg.fls, CnArg.str "b"] = [] →
        cn [CnArg.str "a", CnArg.undef, CnArg.str "", CnArg.fls, CnArg.str "b"] = "")) ∧
      (cn [CnArg.undef, CnArg.fls, CnArg.str ""] = "") :=
  ⟨cn_joins_truthy [CnArg.str "a", CnArg.undef, CnArg.str "", CnArg.fls, CnArg.str "b"],
    (cn_joins_truthy [CnArg.undef, CnArg.fls, CnArg.str ""]).2 rfl⟩

/-- C8: the ripple emitters are total functions and degrade silently:
when the host has no `.ripple-container` both emitters leave the host
unchanged (the optional-chained `appendChild` is skipped), and the
delayed removal callback applied to a node no longer in the container is
a silent no-op. -/
theorem ripple_emitter_noop_safety (env : Env) (fresh : Nat) (host : Host) (ev : MouseEv)
    (da d l : Bool) (color : Option String) (nodes : List RippleNode) (rid : Nat)
    (hc : host.hasRippleContainer = false)
    (hr : ∀ n ∈ nodes, n.id ≠ rid) :
    createRippleEffect env fresh host ev = host ∧
      handleRippleEffect da d l color fresh host ev = host ∧
      removeRippleNode nodes rid = nodes := by
  refine ⟨?_, ?_, ?_⟩
  · unfold createRippleEffect
    cases hpm : prefersReducedMotion env <;> simp [hc]
  · unfold handleRippleEffect
    cases hda : (da || d || l) <;> simp [hda, hc]
  · rw [removeRippleNode, List.filter_eq_self.mpr]
    intro n hn
    simpa using hr n hn

theorem ripple_emitter_noop_safety_witness :
    (Host.mk 0 0 4 2 false []).hasRippleContainer = false ∧
      (∀ n ∈ [RippleNode.mk 5 4 4 (-1) (-1) "ripple-effect" none], n.id ≠ 3) ∧
      (createRippleEffect (Env.mk true false false false) 0 (Host.mk 0 0 4 2 false [])
          (MouseEv.mk 1 1) = Host.mk 0 0 4 2 false [] ∧
        handleRippleEffect false false false none 0 (Host.mk 0 0 4 2 false [])
          (MouseEv.mk 1 1) = Host.mk 0 0 4 2 false [] ∧
        removeRippleNode [RippleNode.mk 5 4 4 (-1) (-1) "ripple-effect" none] 3 =
          [RippleNode.mk 5 4 4 (-1) (-1) "ripple-effect" none]) :=
  ⟨rfl, by decide,
    ripple_emitter_noop_safety (Env.mk true false false false) 0 (Host.mk 0 0 4 2 false [])
      (MouseEv.mk 1 1) false false false none
      [RippleNode.mk 5 4 4 (-1) (-1) "ripple-effect" none] 3 rfl (by decide)⟩

/-- C7: unmounting a control removes exactly the listeners its mount
registered: for any prior listener population not containing the two
freshly created handler identities, unmount after mount restores the
population exactly, so a control mounted into an empty population leaves
zero `keydown` and zero media-query `change` listeners behind. -/
theorem unmount_removes_added_listeners (ks : Option String) (kid mid : Nat)
    (ls : DocListeners) (hk : kid ∉ ls.keydown) (hm : mid ∉ ls.mediaChange) :
    unmountControlListeners ks kid mid (mountControlListeners ks kid mid ls) = ls := by
  unfold mountControlListeners unmountControlListeners
  have hKey : (ls.keydown ++ [kid]).erase kid = ls.keydown := by
    rw [List.erase_append_right _ hk, List.erase_cons_head, List.append_nil]
  have hMed : (ls.mediaChange ++ [mid]).erase mid = ls.mediaChange := by
    rw [List.erase_append_right _ hm, List.erase_cons_head, List.append_nil]
  cases h : optTruthy ks <;> simp [h, hKey, hMed]

theorem unmount_removes_added_listeners_witness :
    (0 : Nat) ∉ (DocListeners.mk [] []).keydown ∧
      (1 : Nat) ∉ (DocListeners.mk [] []).mediaChange ∧
      unmountControlListeners (some "ctrl+s") 0 1
        (mountControlListeners (some "ctrl+s") 0 1 (DocListeners.mk [] [])) =
        DocListeners.mk [] [] :=
  ⟨by decide, by decide,
    unmount_removes_added_listeners (some "ctrl+s") 0 1 (DocListeners.mk [] [])
      (by decide) (by decide)⟩

/-- Ctrl+k keydown event with focus on `document.body`. -/
def evCtrlK : KeyEvent :=
  { key := "k", ctrlKey := true, altKey := false, shiftKey := false, metaKey := false
    targetTag := some "BODY" }

/-- C5: a Button configured with `keyboardShortcut: "ctrl+k"` and
`disabled: false` reacts to a ctrl+k keydown targeting `document.body`
by calling `preventDefault` and clicking the host exactly once; with
`disabled: true` (or `isLoading: true`) the identical event invokes
neither. -/
theorem ctrlK_scenario :
    buttonHandleGlobalKeyDown "ctrl+k" false false evCtrlK =
        { prevented := true, clicks := 1 } ∧
      buttonHandleGlobalKeyDown "ctrl+k" true false evCtrlK =
        { prevented := false, clicks := 0 } ∧
      buttonHandleGlobalKeyDown "ctrl+k" false true evCtrlK =
        { prevented := false, clicks := 0 } := by
  refine ⟨?_, ?_, ?_⟩ <;> decide

/-- C3: a registered shortcut never fires while focus is on a
text-entry-capable element: whenever the event target's tag name
lowercases to `input`, `textarea` or `select`, both handlers neither
call `preventDefault` nor click, for every combination and eligibility
state, even when the key combination matches. -/
theorem shortcut_noop_in_text_entry (ks : String) (d l : Bool) (e : KeyEvent) (t : String)
    (ht : e.targetTag = some t) (hmem : jsToLower t ∈ textEntryTags) :
    buttonHandleGlobalKeyDown ks d l e = { prevented := false, clicks := 0 } ∧
      fabHandleGlobalKeyDown ks d e = { prevented := false, clicks := 0 } := by
  have hg : isTextEntryTarget e = true := by
    rw [isTextEntryTarget, ht]
    exact List.elem_iff.mpr hmem
  exact ⟨by rw [buttonHandleGlobalKeyDown, if_pos hg],
    by rw [fabHandleGlobalKeyDown, if_pos hg]⟩

theorem shortcut_noop_in_text_entry_witness :
    (KeyEvent.mk "k" true false false false (some "INPUT")).targetTag = some "INPUT" ∧
      jsToLower "INPUT" ∈ textEntryTags ∧
      (buttonHandleGlobalKeyDown "ctrl+k" false false
          (KeyEvent.mk "k" true false false false (some "INPUT")) =
            { prevented := false, clicks := 0 } ∧
        fabHandleGlobalKeyDown "ctrl+k" false
          (KeyEvent.mk "k" true false false false (some "INPUT")) =
            { prevented := false, clicks := 0 }) :=
  ⟨rfl, by decide,
    shortcut_noop_in_text_entry "ctrl+k" false false
      (KeyEvent.mk "k" true false false false (some "INPUT")) "INPUT" rfl (by decide)⟩

/-- Unfolds `comboMatchesEvent` when the combination has a literal
key. -/
theorem comboMatchesEvent_some (c : ParsedCombo) (e : KeyEvent) (k : String)
    (h : c.mainKey = some k) :
    comboMatchesEvent c e =
      (jsToLower e.key == k && e.ctrlKey == c.ctrl && e.altKey == c.alt &&
        e.shiftKey == c.shift && e.metaKey == c.meta) := by
  rw [comboMatchesEvent, h]

/-- C2: under the eligibility and focus guards (non-text-entry target,
control neither disabled nor loading), both handlers fire iff the
event's lowercased literal key equals the parsed literal key and all
four modifier flags on the event are exactly the parsed modifier flags;
a present-but-not-required or required-but-absent modifier rejects the
match. -/
theorem shortcut_match_iff_exact (ks : String) (e : KeyEvent) (k : String)
    (hguard : isTextEntryTarget e = false)
    (hkey : (parseCombination ks).mainKey = some k) :
    ((buttonHandleGlobalKeyDown ks false false e).clicks = 1 ↔
       (jsToLower e.key = k ∧ e.ctrlKey = (parseCombination ks).ctrl ∧
         e.altKey = (parseCombination ks).alt ∧ e.shiftKey = (parseCombination ks).shift ∧
         e.metaKey = (parseCombination ks).meta)) ∧
    ((fabHandleGlobalKeyDown ks false e).clicks = 1 ↔
       (jsToLower e.key = k ∧ e.ctrlKey = (parseCombination ks).ctrl ∧
         e.altKey = (parseCombination ks).alt ∧ e.shiftKey = (parseCombination ks).shift ∧
         e.metaKey = (parseCombination ks).meta)) := by
  have hm := comboMatchesEvent_some (parseCombination ks) e k hkey
  constructor <;>
  · simp only [buttonHandleGlobalKeyDown, fabHandleGlobalKeyDown, hguard,
      Bool.false_eq_true, if_false, hm, Bool.not_false, Bool.and_true]
    cases hb : (jsToLower e.key == k && e.ctrlKey == (parseCombination ks).ctrl &&
        e.altKey == (parseCombination ks).alt &&
        e.shiftKey == (parseCombination ks).shift &&
        e.metaKey == (parseCombination ks).meta) <;>
      simp_all

theorem shortcut_match_iff_exact_witness :
    isTextEntryTarget evCtrlK = false ∧
      (parseCombination "ctrl+k").mainKey = some "k" ∧
      (((buttonHandleGlobalKeyDown "ctrl+k" false false evCtrlK).clicks = 1 ↔
         (jsToLower evCtrlK.key = "k" ∧ evCtrlK.ctrlKey = (parseCombination "ctrl+k").ctrl ∧
           evCtrlK.altKey = (parseCombination "ctrl+k").alt ∧
           evCtrlK.shiftKey = (parseCombination "ctrl+k").shift ∧
           evCtrlK.metaKey = (parseCombination "ctrl+k").meta)) ∧
       ((fabHandleGlobalKeyDown "ctrl+k" false evCtrlK).clicks = 1 ↔
         (jsToLower evCtrlK.key = "k" ∧ evCtrlK.ctrlKey = (parseCombination "ctrl+k").ctrl ∧
           evCtrlK.altKey = (parseCombination "ctrl+k").alt ∧
           evCtrlK.shiftKey = (parseCombination "ctrl+k").shift ∧
           evCtrlK.metaKey = (parseCombination "ctrl+k").meta))) :=
  ⟨by decide, by decide,
    shortcut_match_iff_exact "ctrl+k" evCtrlK "k" (by decide) (by decide)⟩

/-- List `contains` only depends on membership, so it is invariant under
permutation. -/
theorem contains_eq_of_perm {l₁ l₂ : List String} (h : l₁.Perm l₂) (a : String) :
    l₁.contains a = l₂.contains a := by
  rw [Bool.eq_iff_iff, List.elem_iff, List.elem_iff]
  exact h.mem_iff

/-- C6: shortcut parsing is case-insensitive and, for modifiers,
order-insensitive: two combination strings whose lowercased
`'+'`-delimited token lists are permutations of one another, with
exactly one non-modifier token `k`, parse to the same modifier flags and
the same literal key `k`. -/
theorem parse_caseless_orderless (s₁ s₂ k : String)
    (hperm : (jsSplitOnPlus (jsToLower s₁)).Perm (jsSplitOnPlus (jsToLower s₂)))
    (hone : (jsSplitOnPlus (jsToLower s₁)).filter
        (fun t => !modifierTokens.contains t) = [k]) :
    parseCombination s₁ = parseCombination s₂ ∧
      (parseCombination s₁).mainKey = some k := by
  have hone₂ : (jsSplitOnPlus (jsToLower s₂)).filter
      (fun t => !modifierTokens.contains t) = [k] := by
    have hp := (hperm.filter fun t => !modifierTokens.contains t).symm
    rw [hone] at hp
    exact List.perm_singleton.mp hp
  have hc := fun a => contains_eq_of_perm hperm a
  constructor
  · simp only [parseCombination, parseTokens, hone, hone₂, hc "ctrl", hc "control",
      hc "alt", hc "shift", hc "meta", hc "cmd", hc "command"]
  · simp only [parseCombination, parseTokens, hone]
    rfl

theorem parse_caseless_orderless_witness :
    (jsSplitOnPlus (jsToLower "Shift+Ctrl+S")).Perm
        (jsSplitOnPlus (jsToLower "ctrl+s+shift")) ∧
      (jsSplitOnPlus (jsToLower "Shift+Ctrl+S")).filter
        (fun t => !modifierTokens.contains t) = ["s"] ∧
      (parseCombination "Shift+Ctrl+S" = parseCombination "ctrl+s+shift" ∧
        (parseCombination "Shift+Ctrl+S").mainKey = some "s") :=
  ⟨by decide, by decide,
    parse_caseless_orderless "Shift+Ctrl+S" "ctrl+s+shift" "s" (by decide) (by decide)⟩

/-- C4: with reduced motion off and a `.ripple-container` present, one
call to `createRippleEffect` appends exactly one ripple node to the
container, sized to `max(width, height)` of the host, positioned so
that its centre (`left + width/2`, `top + height/2`) is exactly the
activation point relative to the host — exact in rational arithmetic,
hence within sub-pixel rounding of the floating-point original. -/
theorem ripple_centered_single_insert (env : Env) (fresh : Nat) (host : Host) (ev : MouseEv)
    (hrm : prefersReducedMotion env = false)
    (hc : host.hasRippleContainer = true)
    (_hpx : host.rectLeft ≤ ev.clientX ∧ ev.clientX ≤ host.rectLeft + host.width)
    (_hpy : host.rectTop ≤ ev.clientY ∧ ev.clientY ≤ host.rectTop + host.height) :
    ∃ r : RippleNode,
      (createRippleEffect env fresh host ev).nodes = host.nodes ++ [r] ∧
        r.width = max host.width host.height ∧
        r.height = max host.width host.height ∧
        r.left + r.width / 2 = ev.clientX - host.rectLeft ∧
        r.top + r.height / 2 = ev.clientY - host.rectTop := by
  refine ⟨RippleNode.mk fresh (max host.width host.height) (max host.width host.height)
      (ev.clientX - host.rectLeft - max host.width host.height / 2)
      (ev.clientY - host.rectTop - max host.width host.height / 2)
      "ripple-effect" none, ?_, rfl, rfl, by ring, by ring⟩
  simp [createRippleEffect, hrm, hc]

theorem ripple_centered_single_insert_witness :
    prefersReducedMotion (Env.mk true false false false) = false ∧
      (Host.mk 0 0 4 2 true []).hasRippleContainer = true ∧
      ((0 : ℚ) ≤ 1 ∧ (1 : ℚ) ≤ 0 + 4) ∧ ((0 : ℚ) ≤ 1 ∧ (1 : ℚ) ≤ 0 + 2) ∧
      (∃ r : RippleNode,
        (createRippleEffect (Env.mk true false false false) 0 (Host.mk 0 0 4 2 true [])
            (MouseEv.mk 1 1)).nodes = (Host.mk 0 0 4 2 true []).nodes ++ [r] ∧
          r.width = max (Host.mk 0 0 4 2 true []).width (Host.mk 0 0 4 2 true []).height ∧
          r.height = max (Host.mk 0 0 4 2 true []).width (Host.mk 0 0 4 2 true []).height ∧
          r.left + r.width / 2 =
            (MouseEv.mk 1 1).clientX - (Host.mk 0 0 4 2 true []).rectLeft ∧
          r.top + r.height / 2 =
            (MouseEv.mk 1 1).clientY - (Host.mk 0 0 4 2 true []).rectTop) :=
  ⟨rfl, rfl, ⟨by norm_num, by norm_num⟩, ⟨by norm_num, by norm_num⟩,
    ripple_centered_single_insert (Env.mk true false false false) 0
      (Host.mk 0 0 4 2 true []) (MouseEv.mk 1 1) rfl rfl
      ⟨by norm_num, by norm_num⟩ ⟨by norm_num, by norm_num⟩⟩

/-- C1 is refuted by the code: with reduced motion active
(`prefers-reduced-motion: reduce` matches), an enabled Button with
`rippleColor: "red"` still inserts a ripple node on click, because the
`onClick` handler routes to `handleRippleEffect` — which checks
`disableAnimation || disabled || isLoading` but never
`prefersReducedMotion()` — whenever a custom ripple color or a
non-default duration is configured.  The default path
(`createRippleEffect`, third conjunct) does suppress the node under the
same preference, which is the documented intent. -/
theorem reduced_motion_bypassed_on_custom_ripple :
    prefersReducedMotion (Env.mk true true false false) = true ∧
      (buttonOnClickRipple (Env.mk true true false false)
          (ButtonCfg.mk false false false (some "red") 600) 0
          (Host.mk 0 0 4 2 true []) (MouseEv.mk 1 1)).nodes.length = 1 ∧
      (buttonOnClickRipple (Env.mk true true false false)
          (ButtonCfg.mk false false false none 600) 0
          (Host.mk 0 0 4 2 true []) (MouseEv.mk 1 1)).nodes.length = 0 := by
  refine ⟨rfl, ?_, ?_⟩ <;> decide

end Primula
